import Mathlib

/-!
Verification of the ext_authz playground servers: two Go programs exposing
an external-authorization check over gRPC and HTTP.  The exact-match
variant lives in `src/ext_authz/server/main.go` (namespace `ExtAuthz`
below); the bearer-token variant lives in `src/unnamed/part_000`
(namespace `Bearer` below).  Strings model Go strings; header maps are
association lists with the Go zero-value convention (a missing key reads
as the empty string).
-/

/-- A Go `map[string]string` read: `m[k]` yields the stored value, or the
zero value `""` when the key is absent (`request.GetAttributes()...GetHeaders()[k]`). -/
def mapGet (m : List (String × String)) (k : String) : String :=
  match m.find? (fun p => p.1 == k) with
  | some p => p.2
  | none => ""

/-- Go `net/textproto.validHeaderFieldByte`: the RFC 7230 token bytes,
written by code point (39 is the single quote, 96 the backtick). -/
def validHeaderFieldByte (c : Char) : Bool :=
  let n := c.toNat
  (48 ≤ n && n ≤ 57) || (65 ≤ n && n ≤ 90) || (97 ≤ n && n ≤ 122) ||
  n == 33 || n == 35 || n == 36 || n == 37 || n == 38 || n == 39 ||
  n == 42 || n == 43 || n == 45 || n == 46 || n == 94 || n == 95 ||
  n == 96 || n == 124 || n == 126

/-- The per-character loop of Go `textproto.CanonicalMIMEHeaderKey`:
uppercase at the start and after each hyphen, lowercase elsewhere. -/
def canonChars : Bool → List Char → List Char
  | _, [] => []
  | upper, c :: rest =>
    let c2 := if upper then c.toUpper else c.toLower
    c2 :: canonChars (c2 == '-') rest

/-- Go `textproto.CanonicalMIMEHeaderKey`: canonicalise a header name
(`x-ext-authz` becomes `X-Ext-Authz`); a name holding a byte that is not a
valid header-field byte is returned unchanged. -/
def canonicalMIMEHeaderKey (s : String) : String :=
  if s.toList.all validHeaderFieldByte then
    String.mk (canonChars true s.toList)
  else s

/-- Go `http.Header.Get` over a wire header list: the server stores each
header under its canonical name, and `Get` canonicalises the key it looks
up, so the lookup is case-insensitive on canonicalisable names. -/
def headerGet (wire : List (String × String)) (k : String) : String :=
  mapGet (wire.map (fun p => (canonicalMIMEHeaderKey p.1, p.2))) (canonicalMIMEHeaderKey k)

/-- `AttributeContext_HttpRequest` of the ext_authz proto: the nested HTTP
attributes of a `CheckRequest` (a nil headers map is `none`). -/
structure AttrHttp where
  headers : Option (List (String × String))
  host : String
  path : String
  method : String
deriving DecidableEq

/-- `AttributeContext_Request` of the ext_authz proto. -/
structure AttrRequest where
  http : Option AttrHttp
deriving DecidableEq

/-- `AttributeContext` of the ext_authz proto. -/
structure Attributes where
  request : Option AttrRequest
deriving DecidableEq

/-- `auth.CheckRequest`: every nesting level is optional, as in the
generated Go structs whose getters tolerate nil receivers. -/
structure CheckRequest where
  attributes : Option Attributes
deriving DecidableEq

/-- The chained Go getters
`request.GetAttributes().GetRequest().GetHttp().GetHeaders()`: any nil
level yields the nil map, which reads as empty. -/
def CheckRequest.getHeaders (r : CheckRequest) : List (String × String) :=
  match r.attributes with
  | none => []
  | some a =>
    match a.request with
    | none => []
    | some rq =>
      match rq.http with
      | none => []
      | some h => h.headers.getD []

/-- The observable part of an `auth.CheckResponse`: the header list carried
by the `OkHttpResponse` and the `google.rpc` status code
(`OK` = 0, `PERMISSION_DENIED` = 7). -/
structure CheckResponse where
  headers : List (String × String)
  statusCode : Int
deriving DecidableEq

/-- An inbound `http.Request` as the handlers see it: method, host, URL and
the wire header list. -/
structure HttpRequest where
  method : String
  host : String
  url : String
  headers : List (String × String)
deriving DecidableEq

/-- The observable part of an HTTP handler response: headers written via
`Header().Set` (stored under canonical names) and the status code. -/
structure HttpResponse where
  headers : List (String × String)
  status : Nat
deriving DecidableEq

/-- A `CheckRequest` whose only header is `name : v` (host/path/method empty). -/
def grpcReq (name v : String) : CheckRequest :=
  ⟨some ⟨some ⟨some ⟨some [(name, v)], "", "", ""⟩⟩⟩⟩

/-- An `http.Request` carrying the given wire headers. -/
def httpReq (hs : List (String × String)) : HttpRequest :=
  ⟨"GET", "", "", hs⟩

/-- Terminal observation of a listener-start routine: it is accepting
connections, it returned after only logging, or it called `log.Fatalf`
(which prints and then exits the whole process with code 1). -/
inductive ListenerEnd where
  | serving
  | stopped
  | fatalExit
deriving DecidableEq

namespace ExtAuthz

/-- `checkHeader` constant of main.go. -/
def checkHeader : String := "x-ext-authz"

/-- `allowedValue` constant of main.go. -/
def allowedValue : String := "allow"

/-- `resultHeader` constant of main.go. -/
def resultHeader : String := "x-ext-authz-result"

/-- `(*ExtAuthzServer).Check` of main.go: allow iff the `x-ext-authz`
entry of the gRPC headers map equals `allow`; both branches return a
header-carrying response and a nil error. -/
def Check (request : CheckRequest) : CheckResponse × Option String :=
  if allowedValue == mapGet request.getHeaders checkHeader then
    (⟨[(resultHeader, "allowed")], 0⟩, none)
  else
    (⟨[(resultHeader, "denied")], 7⟩, none)

/-- `(*ExtAuthzServer).ServeHTTP` of main.go: allow iff
`request.Header.Get("x-ext-authz")` equals `allow`; the result header is
set through `Header().Set`, which canonicalises its name. -/
def ServeHTTP (request : HttpRequest) : HttpResponse :=
  if allowedValue == headerGet request.headers checkHeader then
    ⟨[(canonicalMIMEHeaderKey resultHeader, "allowed")], 200⟩
  else
    ⟨[(canonicalMIMEHeaderKey resultHeader, "denied")], 403⟩

/-- `startGRPC` of main.go, observed at its bind step: on `net.Listen`
failure it calls `log.Fatalf`, which terminates the whole process;
otherwise it serves. -/
def startGRPC (bindFails : Bool) : ListenerEnd :=
  if bindFails then ListenerEnd.fatalExit else ListenerEnd.serving

/-- `startHTTP` of main.go, observed at its bind step: on `net.Listen`
failure it calls `log.Fatalf`, which terminates the whole process;
otherwise it serves. -/
def startHTTP (bindFails : Bool) : ListenerEnd :=
  if bindFails then ListenerEnd.fatalExit else ListenerEnd.serving

/-- Which address each server of main.go binds. -/
structure Bound where
  grpcBinds : String
  httpBinds : String
deriving DecidableEq

/-- `run` of main.go, lines 157-158: it passes its first parameter
`httpAddr` to `startGRPC` and its second parameter `grpcAddr` to
`startHTTP`. -/
def run (httpAddr grpcAddr : String) : Bound :=
  ⟨httpAddr, grpcAddr⟩

/-- `main` of main.go: `s.run(":"+*httpPort, ":"+*grpcPort)` with the flag
values (`-http`, default `8000`; `-grpc`, default `9000`). -/
def mainBind (httpFlag grpcFlag : String) : Bound :=
  run (":" ++ httpFlag) (":" ++ grpcFlag)

end ExtAuthz

namespace Bearer

/-- `check` of part_000: `token` is the header with the literal prefix
`"Bearer "` stripped when present (Go strings are byte sequences; the
prefix test and trim are `strings.HasPrefix` / `strings.TrimPrefix`,
modelled on the character list), otherwise the empty string; allow iff
`token == "allow"`. -/
def check (header : String) : Bool :=
  let token :=
    if List.isPrefixOf "Bearer ".toList header.toList then
      String.mk (header.toList.drop 7)
    else ""
  token == "allow"

/-- `(*ExtAuthzServer).Check` of part_000: run `check` on the
`Authorization` entry of the gRPC headers map; allow injects the
`Set-Cookie` header, deny carries no headers; the error is always nil. -/
def Check (request : CheckRequest) : CheckResponse × Option String :=
  if check (mapGet request.getHeaders "Authorization") then
    (⟨[("Set-Cookie", "xt-AuthZ-Custom-Cookie=abcd5678")], 0⟩, none)
  else
    (⟨[], 7⟩, none)

/-- `ExtAuthzServer.ServeHTTP` of part_000: run `check` on
`request.Header.Get("Authorization")`; allow sets a `Set-Cookie` header
and status 200, deny writes 403 with no headers. -/
def ServeHTTP (request : HttpRequest) : HttpResponse :=
  if check (headerGet request.headers "Authorization") then
    ⟨[(canonicalMIMEHeaderKey "Set-Cookie", "Ext-AuthZ-Custom-Cookie=abcd1234")], 200⟩
  else
    ⟨[], 403⟩

/-- `startGRPC` of part_000, observed at its bind step: on `net.Listen`
failure it only calls `log.Printf` and returns, so that listener stops
while the process lives on. -/
def startGRPC (bindFails : Bool) : ListenerEnd :=
  if bindFails then ListenerEnd.stopped else ListenerEnd.serving

/-- `startHTTP` of part_000, observed at its bind step (inside
`ListenAndServe`): a bind error is only logged with `log.Printf`, so that
listener stops while the process lives on. -/
def startHTTP (bindFails : Bool) : ListenerEnd :=
  if bindFails then ListenerEnd.stopped else ListenerEnd.serving

end Bearer

/-! ### Helper lemmas -/

theorem mapGet_nil (k : String) : mapGet [] k = "" := rfl

theorem mapGet_single (k v : String) : mapGet [(k, v)] k = v := by
  simp [mapGet, List.find?]

theorem mapGet_single_ne (a k v : String) (h : a ≠ k) : mapGet [(a, v)] k = "" := by
  have hb : (a == k) = false := beq_false_of_ne h
  simp [mapGet, List.find?, hb]

theorem headerGet_single (n k v : String)
    (h : canonicalMIMEHeaderKey n = canonicalMIMEHeaderKey k) :
    headerGet [(n, v)] k = v := by
  simp only [headerGet, List.map, h]
  exact mapGet_single _ _

theorem getHeaders_grpcReq (n v : String) : (grpcReq n v).getHeaders = [(n, v)] := rfl

theorem httpReq_headers (hs : List (String × String)) : (httpReq hs).headers = hs := rfl

/-! ### Claim theorems -/

/-- Claim C1: the claim says the HTTP listener binds the HTTP port (flag
`-http`, default 8000) and the gRPC listener the gRPC port (flag `-grpc`,
default 9000).  The code of main.go does the opposite: `run` hands its
`httpAddr` parameter to `startGRPC` and its `grpcAddr` parameter to
`startHTTP`, so with the default flags the gRPC server binds `:8000` and
the HTTP server binds `:9000`. -/
theorem grpc_http_port_swap :
    (ExtAuthz.mainBind "8000" "9000").grpcBinds = ":8000" ∧
    (ExtAuthz.mainBind "8000" "9000").httpBinds = ":9000" := by
  constructor <;> rfl

/-- Claim C2: exact-match rule.  A request whose credential header
`x-ext-authz` carries value `v` is ALLOWED iff `v = "allow"`
(case-sensitively, no trimming), and DENIED (status 7 / 403) for every
other value; a request with no headers at all is DENIED.  This holds on
the gRPC `Check` path and the HTTP `ServeHTTP` path alike. -/
theorem exact_match_rule (v : String) :
    ((ExtAuthz.Check (grpcReq ExtAuthz.checkHeader v)).1.statusCode = 0 ↔ v = "allow") ∧
    ((ExtAuthz.Check (grpcReq ExtAuthz.checkHeader v)).1.statusCode = 7 ↔ v ≠ "allow") ∧
    ((ExtAuthz.ServeHTTP (httpReq [(ExtAuthz.checkHeader, v)])).status = 200 ↔ v = "allow") ∧
    ((ExtAuthz.ServeHTTP (httpReq [(ExtAuthz.checkHeader, v)])).status = 403 ↔ v ≠ "allow") ∧
    (ExtAuthz.Check ⟨none⟩).1.statusCode = 7 ∧
    (ExtAuthz.ServeHTTP (httpReq [])).status = 403 := by
  have hg : mapGet (grpcReq ExtAuthz.checkHeader v).getHeaders ExtAuthz.checkHeader = v := by
    rw [getHeaders_grpcReq]; exact mapGet_single _ _
  have hh : headerGet [(ExtAuthz.checkHeader, v)] ExtAuthz.checkHeader = v :=
    headerGet_single _ _ _ rfl
  have hempty : (ExtAuthz.Check ⟨none⟩).1.statusCode = 7 ∧
      (ExtAuthz.ServeHTTP (httpReq [])).status = 403 := by decide
  rcases eq_or_ne v "allow" with rfl | hv
  · refine ⟨?_, ?_, ?_, ?_, hempty.1, hempty.2⟩ <;>
      simp [ExtAuthz.Check, ExtAuthz.ServeHTTP, ExtAuthz.allowedValue, hg, hh, httpReq_headers]
  · refine ⟨?_, ?_, ?_, ?_, hempty.1, hempty.2⟩ <;>
      simp [ExtAuthz.Check, ExtAuthz.ServeHTTP, ExtAuthz.allowedValue, hg, hh,
        httpReq_headers, hv, Ne.symm hv]

/-- Claim C3: bearer-token rule.  `check v` is ALLOWED exactly when `v` is
the literal `"Bearer "` followed by `"allow"` — i.e. the token obtained by
stripping the case-sensitive prefix `"Bearer "` (or `""` when the prefix
is absent) equals `"allow"`.  In particular `check "bearer allow"` (wrong
case) and `check "allow"` (no prefix) are DENIED. -/
theorem bearer_token_rule :
    (∀ v : String, Bearer.check v = true ↔ v = "Bearer allow") ∧
    Bearer.check "bearer allow" = false ∧ Bearer.check "allow" = false := by
  refine ⟨?_, by decide, by decide⟩
  intro v
  constructor
  · intro h
    simp only [Bearer.check] at h
    by_cases hp : List.isPrefixOf "Bearer ".toList v.toList = true
    · rw [if_pos hp] at h
      have hmk : String.mk (v.toList.drop 7) = "allow" := eq_of_beq h
      obtain ⟨t, ht⟩ := List.isPrefixOf_iff_prefix.mp hp
      have hdrop : v.toList.drop 7 = t := by
        rw [← ht]; exact List.drop_left' (by decide)
      rw [hdrop] at hmk
      have hdata : t = "allow".data := congrArg String.data hmk
      have hv : v.data = "Bearer ".toList ++ t := ht.symm
      apply String.ext
      rw [hv, hdata]
      decide
    · rw [if_neg hp] at h
      exact absurd h (by decide)
  · rintro rfl
    decide

/-- Claim C4: verdict-to-response mapping, for every credential value `v`.
Exact-match variant: ALLOW yields gRPC status 0 with
`x-ext-authz-result: allowed` and HTTP 200 with the same header (stored
under its canonical name `X-Ext-Authz-Result`); DENY yields status 7 with
`x-ext-authz-result: denied` and HTTP 403.  Bearer variant: ALLOW yields
status 0 / 200 with a `Set-Cookie` header; DENY yields status 7 / 403
with no headers injected. -/
theorem verdict_response_mapping (v : String) :
    (ExtAuthz.Check (grpcReq ExtAuthz.checkHeader v)).1 =
      (if v = "allow" then (⟨[(ExtAuthz.resultHeader, "allowed")], 0⟩ : CheckResponse)
       else ⟨[(ExtAuthz.resultHeader, "denied")], 7⟩) ∧
    ExtAuthz.ServeHTTP (httpReq [(ExtAuthz.checkHeader, v)]) =
      (if v = "allow" then (⟨[("X-Ext-Authz-Result", "allowed")], 200⟩ : HttpResponse)
       else ⟨[("X-Ext-Authz-Result", "denied")], 403⟩) ∧
    (Bearer.Check (grpcReq "Authorization" v)).1 =
      (if Bearer.check v = true then
         (⟨[("Set-Cookie", "xt-AuthZ-Custom-Cookie=abcd5678")], 0⟩ : CheckResponse)
       else ⟨[], 7⟩) ∧
    Bearer.ServeHTTP (httpReq [("Authorization", v)]) =
      (if Bearer.check v = true then
         (⟨[("Set-Cookie", "Ext-AuthZ-Custom-Cookie=abcd1234")], 200⟩ : HttpResponse)
       else ⟨[], 403⟩) := by
  have hg : mapGet (grpcReq ExtAuthz.checkHeader v).getHeaders ExtAuthz.checkHeader = v := by
    rw [getHeaders_grpcReq]; exact mapGet_single _ _
  have hh : headerGet [(ExtAuthz.checkHeader, v)] ExtAuthz.checkHeader = v :=
    headerGet_single _ _ _ rfl
  have hga : mapGet (grpcReq "Authorization" v).getHeaders "Authorization" = v := by
    rw [getHeaders_grpcReq]; exact mapGet_single _ _
  have hha : headerGet [("Authorization", v)] "Authorization" = v :=
    headerGet_single _ _ _ rfl
  have hcr : canonicalMIMEHeaderKey ExtAuthz.resultHeader = "X-Ext-Authz-Result" := by decide
  have hcs : canonicalMIMEHeaderKey "Set-Cookie" = "Set-Cookie" := by decide
  refine ⟨?_, ?_, ?_, ?_⟩
  · rcases eq_or_ne v "allow" with rfl | hv
    · simp [ExtAuthz.Check, ExtAuthz.allowedValue, hg]
    · simp [ExtAuthz.Check, ExtAuthz.allowedValue, hg, hv, Ne.symm hv]
  · rcases eq_or_ne v "allow" with rfl | hv
    · simp [ExtAuthz.ServeHTTP, ExtAuthz.allowedValue, httpReq_headers, hh, hcr]
    · simp [ExtAuthz.ServeHTTP, ExtAuthz.allowedValue, httpReq_headers, hh, hcr, hv, Ne.symm hv]
  · cases hb : Bearer.check v <;> simp [Bearer.Check, hga, hb]
  · cases hb : Bearer.check v <;> simp [Bearer.ServeHTTP, httpReq_headers, hha, hb, hcs]

/-- Claim C5: cross-protocol consistency.  Within each rule variant and
for every credential header value `v`, the gRPC `Check` path allows
(status 0) exactly when the HTTP path allows (status 200). -/
theorem cross_protocol_consistency (v : String) :
    ((ExtAuthz.Check (grpcReq ExtAuthz.checkHeader v)).1.statusCode = 0 ↔
      (ExtAuthz.ServeHTTP (httpReq [(ExtAuthz.checkHeader, v)])).status = 200) ∧
    ((Bearer.Check (grpcReq "Authorization" v)).1.statusCode = 0 ↔
      (Bearer.ServeHTTP (httpReq [("Authorization", v)])).status = 200) := by
  have hg : mapGet (grpcReq ExtAuthz.checkHeader v).getHeaders ExtAuthz.checkHeader = v := by
    rw [getHeaders_grpcReq]; exact mapGet_single _ _
  have hh : headerGet [(ExtAuthz.checkHeader, v)] ExtAuthz.checkHeader = v :=
    headerGet_single _ _ _ rfl
  have hga : mapGet (grpcReq "Authorization" v).getHeaders "Authorization" = v := by
    rw [getHeaders_grpcReq]; exact mapGet_single _ _
  have hha : headerGet [("Authorization", v)] "Authorization" = v :=
    headerGet_single _ _ _ rfl
  constructor
  · rcases eq_or_ne v "allow" with rfl | hv
    · simp [ExtAuthz.Check, ExtAuthz.ServeHTTP, ExtAuthz.allowedValue, hg, hh, httpReq_headers]
    · simp [ExtAuthz.Check, ExtAuthz.ServeHTTP, ExtAuthz.allowedValue, hg, hh,
        httpReq_headers, hv, Ne.symm hv]
  · cases hb : Bearer.check v <;>
      simp [Bearer.Check, Bearer.ServeHTTP, hga, hha, httpReq_headers, hb]

/-- Claim C6 counterexample: in the bearer variant (part_000) a bind
failure of either listener only logs (`log.Printf`) and stops that
listener; it does not terminate the process, contradicting the claim that
a bind failure of either listener is fatal at the process level. -/
theorem bearer_bind_failure_not_fatal :
    Bearer.startGRPC true = ListenerEnd.stopped ∧
    Bearer.startHTTP true = ListenerEnd.stopped ∧
    ListenerEnd.stopped ≠ ListenerEnd.fatalExit := by decide

/-- Claim C6 amended: in the exact-match variant (main.go) a bind failure
of either listener calls `log.Fatalf`, terminating the whole process
(non-zero exit) without retry and never merely stopping the listener; in
the bearer variant (part_000) a bind failure is logged and only that
listener stops — the process never exits because of it. -/
theorem bind_failure_modes :
    (ExtAuthz.startGRPC true = ListenerEnd.fatalExit ∧
     ExtAuthz.startHTTP true = ListenerEnd.fatalExit) ∧
    (Bearer.startGRPC true = ListenerEnd.stopped ∧
     Bearer.startHTTP true = ListenerEnd.stopped) ∧
    (∀ b : Bool,
      ExtAuthz.startGRPC b ≠ ListenerEnd.stopped ∧
      ExtAuthz.startHTTP b ≠ ListenerEnd.stopped ∧
      Bearer.startGRPC b ≠ ListenerEnd.fatalExit ∧
      Bearer.startHTTP b ≠ ListenerEnd.fatalExit) := by decide

/-- Claim C7: noninterference.  In both variants and on both protocol
paths, the response is a function of the credential header value alone:
two requests whose credential header reads equal — whatever their method,
host, path, URL or other headers — get identical responses. -/
theorem verdict_noninterference :
    (∀ r1 r2 : CheckRequest,
      mapGet r1.getHeaders ExtAuthz.checkHeader = mapGet r2.getHeaders ExtAuthz.checkHeader →
      ExtAuthz.Check r1 = ExtAuthz.Check r2) ∧
    (∀ q1 q2 : HttpRequest,
      headerGet q1.headers ExtAuthz.checkHeader = headerGet q2.headers ExtAuthz.checkHeader →
      ExtAuthz.ServeHTTP q1 = ExtAuthz.ServeHTTP q2) ∧
    (∀ r1 r2 : CheckRequest,
      mapGet r1.getHeaders "Authorization" = mapGet r2.getHeaders "Authorization" →
      Bearer.Check r1 = Bearer.Check r2) ∧
    (∀ q1 q2 : HttpRequest,
      headerGet q1.headers "Authorization" = headerGet q2.headers "Authorization" →
      Bearer.ServeHTTP q1 = Bearer.ServeHTTP q2) := by
  refine ⟨?_, ?_, ?_, ?_⟩ <;> intro a b h
  · simp only [ExtAuthz.Check, h]
  · simp only [ExtAuthz.ServeHTTP, h]
  · simp only [Bearer.Check, h]
  · simp only [Bearer.ServeHTTP, h]

/-- Claim C7 witness: two concrete exact-match requests differing in
host, path, method and extra headers but agreeing on the credential
header get identical gRPC responses, and likewise two HTTP requests. -/
theorem verdict_noninterference_witness :
    ExtAuthz.Check ⟨some ⟨some ⟨some ⟨some [(ExtAuthz.checkHeader, "allow")], "a", "/x", "GET"⟩⟩⟩⟩ =
      ExtAuthz.Check
        ⟨some ⟨some ⟨some ⟨some [("other", "1"), (ExtAuthz.checkHeader, "allow")], "b", "/y", "POST"⟩⟩⟩⟩ ∧
    ExtAuthz.ServeHTTP ⟨"GET", "a", "/x", [(ExtAuthz.checkHeader, "allow")]⟩ =
      ExtAuthz.ServeHTTP ⟨"POST", "b", "/y", [("Other", "1"), (ExtAuthz.checkHeader, "allow")]⟩ :=
  ⟨verdict_noninterference.1 _ _ (by decide),
   verdict_noninterference.2.1 _ _ (by decide)⟩

/-- Claim C8: totality on malformed input.  In both variants, every gRPC
`Check` returns a nil error; any request whose chained getters yield no
headers — in particular one with `Attributes`, `Request`, `Http` or the
headers map absent — reads as an empty credential header and is DENIED
(status 7), never an error. -/
theorem check_total_on_malformed :
    (∀ r : CheckRequest, (ExtAuthz.Check r).2 = none ∧ (Bearer.Check r).2 = none) ∧
    (∀ r : CheckRequest, r.getHeaders = [] →
      (ExtAuthz.Check r).1.statusCode = 7 ∧ (Bearer.Check r).1.statusCode = 7) ∧
    CheckRequest.getHeaders ⟨none⟩ = [] ∧
    CheckRequest.getHeaders ⟨some ⟨none⟩⟩ = [] ∧
    CheckRequest.getHeaders ⟨some ⟨some ⟨none⟩⟩⟩ = [] ∧
    CheckRequest.getHeaders ⟨some ⟨some ⟨some ⟨none, "h", "/p", "GET"⟩⟩⟩⟩ = [] := by
  refine ⟨?_, ?_, rfl, rfl, rfl, rfl⟩
  · intro r
    constructor
    · unfold ExtAuthz.Check; split <;> rfl
    · unfold Bearer.Check; split <;> rfl
  · intro r h
    constructor
    · simp [ExtAuthz.Check, h, mapGet_nil, ExtAuthz.allowedValue]
    · simp [Bearer.Check, h, mapGet_nil]
      decide

/-- Claim C8 witness: the fully-absent request (no `Attributes` at all)
is DENIED by both variants with status 7. -/
theorem check_total_on_malformed_witness :
    (ExtAuthz.Check ⟨none⟩).1.statusCode = 7 ∧ (Bearer.Check ⟨none⟩).1.statusCode = 7 :=
  check_total_on_malformed.2.1 ⟨none⟩ rfl

/-- Claim C9 counterexample: on the gRPC path the headers-map lookup is
case-sensitive — a request carrying the credential under the name
`X-Ext-Authz` with value `allow` is DENIED (status 7) while the same
value under `x-ext-authz` is ALLOWED (status 0); the claim says the two
names yield the same verdict on both paths. -/
theorem grpc_header_case_cex :
    (ExtAuthz.Check (grpcReq "X-Ext-Authz" "allow")).1.statusCode = 7 ∧
    (ExtAuthz.Check (grpcReq "x-ext-authz" "allow")).1.statusCode = 0 ∧
    (ExtAuthz.ServeHTTP (httpReq [("X-Ext-Authz", "allow")])).status = 200 := by decide

/-- Claim C9 amended: the HTTP path is case-insensitive — `Header.Get`
canonicalises the name, so any spelling of `x-ext-authz` with the same
canonical form behaves like the lowercase one — but the gRPC path's Go
map lookup is exact: a single credential header stored under any name
other than the literal `x-ext-authz` is ignored, and the request DENIED. -/
theorem header_lookup_case_sensitivity :
    (∀ name v : String,
      canonicalMIMEHeaderKey name = canonicalMIMEHeaderKey ExtAuthz.checkHeader →
      ExtAuthz.ServeHTTP (httpReq [(name, v)]) =
        ExtAuthz.ServeHTTP (httpReq [(ExtAuthz.checkHeader, v)])) ∧
    (∀ name v : String, name ≠ ExtAuthz.checkHeader →
      (ExtAuthz.Check (grpcReq name v)).1.statusCode = 7) := by
  constructor
  · intro name v h
    have h1 : headerGet [(name, v)] ExtAuthz.checkHeader = v := headerGet_single _ _ _ h
    have h2 : headerGet [(ExtAuthz.checkHeader, v)] ExtAuthz.checkHeader = v :=
      headerGet_single _ _ _ rfl
    simp only [ExtAuthz.ServeHTTP, httpReq_headers, h1, h2]
  · intro name v h
    have h1 : mapGet (grpcReq name v).getHeaders ExtAuthz.checkHeader = "" := by
      rw [getHeaders_grpcReq]; exact mapGet_single_ne _ _ _ h
    simp [ExtAuthz.Check, h1, ExtAuthz.allowedValue]

/-- Claim C9 amended witness: at the concrete name `X-Ext-Authz` the HTTP
path treats it like `x-ext-authz`, while the gRPC path denies it. -/
theorem header_lookup_case_sensitivity_witness :
    ExtAuthz.ServeHTTP (httpReq [("X-Ext-Authz", "allow")]) =
      ExtAuthz.ServeHTTP (httpReq [(ExtAuthz.checkHeader, "allow")]) ∧
    (ExtAuthz.Check (grpcReq "X-Ext-Authz" "allow")).1.statusCode = 7 :=
  ⟨header_lookup_case_sensitivity.1 "X-Ext-Authz" "allow" (by decide),
   header_lookup_case_sensitivity.2 "X-Ext-Authz" "allow" (by decide)⟩

/-- Claim C10: in the bearer variant the two protocols' ALLOWED responses
differ — every allowed gRPC check injects
`Set-Cookie: xt-AuthZ-Custom-Cookie=abcd5678` while every allowed HTTP
check injects `Set-Cookie: Ext-AuthZ-Custom-Cookie=abcd1234`, and the two
cookie values are distinct. -/
theorem bearer_allowed_cookie_divergence :
    (∀ v : String, Bearer.check v = true →
      (Bearer.Check (grpcReq "Authorization" v)).1.headers =
        [("Set-Cookie", "xt-AuthZ-Custom-Cookie=abcd5678")] ∧
      (Bearer.ServeHTTP (httpReq [("Authorization", v)])).headers =
        [("Set-Cookie", "Ext-AuthZ-Custom-Cookie=abcd1234")]) ∧
    ("xt-AuthZ-Custom-Cookie=abcd5678" : String) ≠ "Ext-AuthZ-Custom-Cookie=abcd1234" := by
  constructor
  · intro v h
    have hga : mapGet (grpcReq "Authorization" v).getHeaders "Authorization" = v := by
      rw [getHeaders_grpcReq]; exact mapGet_single _ _
    have hha : headerGet [("Authorization", v)] "Authorization" = v :=
      headerGet_single _ _ _ rfl
    have hcs : canonicalMIMEHeaderKey "Set-Cookie" = "Set-Cookie" := by decide
    constructor
    · simp [Bearer.Check, hga, h]
    · simp [Bearer.ServeHTTP, httpReq_headers, hha, h, hcs]
  · decide

/-- Claim C10 witness: the divergence at the concrete allowed credential
`Bearer allow`. -/
theorem bearer_allowed_cookie_divergence_witness :
    (Bearer.Check (grpcReq "Authorization" "Bearer allow")).1.headers =
      [("Set-Cookie", "xt-AuthZ-Custom-Cookie=abcd5678")] ∧
    (Bearer.ServeHTTP (httpReq [("Authorization", "Bearer allow")])).headers =
      [("Set-Cookie", "Ext-AuthZ-Custom-Cookie=abcd1234")] :=
  bearer_allowed_cookie_divergence.1 "Bearer allow" (by decide)
